import Mathlib

/-!
Shallow embedding of the gopherpack process-supervision package.

The package runs one supervising main process and one worker process per
CPU core.  The embedding models, directly from the Go sources:

* the environment handshake protocol (role detection, token layering in
  forkProcess),
* the strconv.Atoi parse used for the core-index token,
* setupWorkerRuntime (affinity pinning and GOMAXPROCS),
* the socket-option control callback and getListenerWithSocketOptions,
* StartMainProcess: worker-pool construction, the predecessor-termination
  goroutine, the signal loop, and sendSignalToWorkers,
* the worker-side shutdown goroutine with its recover-isolated hook.

External effects (os.StartProcess, p.Signal, p.Wait, unix.SchedSetaffinity,
net Listen) are supplied as explicit oracles giving their outcomes, so the
definitions stay executable and the control flow around those calls is the
part under proof.
-/

namespace Gopherpack

/-! ## Environment protocol -/

/-- Modelled from the spec: the handshake token name constants are declared in
a source file that is not among the given sources (only their uses are).
The spec names three tokens, parent-identity, core-index and
predecessor-identity, all sharing one package prefix that sanitization
strips before a new token set is layered on. -/
def envPrefix : String := "GOPHERPACK"

/-- Modelled from the spec: the parent-identity token; its presence marks the
process as a worker. -/
def envPPID : String := envPrefix ++ "_MAIN_PROCESS_PID"

/-- Modelled from the spec: the core-index token carrying the CPU core a
worker must settle on. -/
def envCPUCore : String := envPrefix ++ "_WORKER_CPU_CORE"

/-- Modelled from the spec: the predecessor-identity token carried only by a
post-upgrade supervisor. -/
def envPrevPPID : String := envPrefix ++ "_PREV_MAIN_PROCESS_PID"

/-- Go strings.HasPrefix on the character sequences of the two strings. -/
def goHasPrefix (s pfx : String) : Bool := pfx.toList.isPrefixOf s.toList

/-- Process role, as the spec names it. -/
inductive Role
  | Supervisor
  | Worker
deriving DecidableEq

/-- The package-level state read once at process start:
isMainProcess = os.Getenv(envPPID) == "" and workerCpuCore =
os.Getenv(envCPUCore).  An environment is a total map from variable name to
value, the empty string standing for an unset variable exactly as
os.Getenv reports it. -/
structure ProcGlobals where
  isMainProcess : Bool
  workerCpuCore : String
deriving DecidableEq

/-- Package initialization: the var block of gopherpack.go evaluated against
the environment present at process start. -/
def processInit (startupEnv : String → String) : ProcGlobals :=
  { isMainProcess := startupEnv envPPID == ""
    workerCpuCore := startupEnv envCPUCore }

/-- IsMainProcess returns the stored package-level boolean. -/
def IsMainProcess (g : ProcGlobals) : Bool := g.isMainProcess

/-- IsMainProcess evaluated at some later time: the source returns the
package-level var and never rereads the ambient environment, so the
currentEnv argument is ignored by the body, mirroring the code. -/
def IsMainProcessAt (g : ProcGlobals) (_currentEnv : String → String) : Bool :=
  g.isMainProcess

/-- Role detection as the spec describes it, derived from the package
initialization: Supervisor when the parent-identity token is absent. -/
def detectRole (startupEnv : String → String) : Role :=
  if IsMainProcess (processInit startupEnv) then Role.Supervisor else Role.Worker

/-! ## strconv.Atoi -/

/-- Decimal digit run folded to a number; any non-digit character fails. -/
def parseDecDigitsAux : List Char → Nat → Option Nat
  | [], acc => some acc
  | c :: cs, acc =>
      if c.isDigit then parseDecDigitsAux cs (10 * acc + (c.toNat - 48)) else none

/-- A non-empty all-digit character list parsed to a number. -/
def parseDecDigits : List Char → Option Nat
  | [] => none
  | c :: cs => parseDecDigitsAux (c :: cs) 0

def int64Max : Int := 9223372036854775807

def int64Min : Int := -9223372036854775808

/-- Go strconv.Atoi: optional single sign, a non-empty run of decimal digits,
64-bit signed range; anything else is an error carrying the offending
input. -/
def goAtoi (s : String) : Except String Int :=
  let (neg, digits) :=
    match s.toList with
    | '-' :: rest => (true, rest)
    | '+' :: rest => (false, rest)
    | cs => (false, cs)
  match parseDecDigits digits with
  | none => Except.error ("strconv.Atoi: parsing \"" ++ s ++ "\": invalid syntax")
  | some n =>
      let v : Int := if neg then -(n : Int) else (n : Int)
      if v < int64Min || int64Max < v then
        Except.error ("strconv.Atoi: parsing \"" ++ s ++ "\": value out of range")
      else Except.ok v

/-! ## Worker runtime setup -/

/-- Observable outcome of setupWorkerRuntime.  retErr is the value the Go
function returns (some = non-nil error); affinityTried records the core
number passed to system.SetAffinity when that call is reached;
affinityErrLogged records the log line emitted on an affinity failure;
gomaxprocsOne records whether runtime.GOMAXPROCS(1) was executed. -/
structure RuntimeTrace where
  retErr : Option String
  affinityTried : Option Int
  affinityErrLogged : Bool
  gomaxprocsOne : Bool
deriving DecidableEq

/-- setupWorkerRuntime from gopherpack.go: parse the core-index token with
strconv.Atoi, returning the parse error on failure; call
system.SetAffinity (outcome given by the affinityErr oracle, some = error),
logging and returning the error on failure; otherwise set GOMAXPROCS(1)
and return nil. -/
def setupWorkerRuntime (affinityErr : Int → Option String)
    (workerCpuCore : String) : RuntimeTrace :=
  match goAtoi workerCpuCore with
  | Except.error e =>
      { retErr := some e, affinityTried := none
        affinityErrLogged := false, gomaxprocsOne := false }
  | Except.ok cpuCore =>
      match affinityErr cpuCore with
      | some e =>
          { retErr := some e, affinityTried := some cpuCore
            affinityErrLogged := true, gomaxprocsOne := false }
      | none =>
          { retErr := none, affinityTried := some cpuCore
            affinityErrLogged := false, gomaxprocsOne := true }

/-- Outcome of the worker branch of ListenAndServeHttp. -/
inductive ServeOutcome
  | mainProcess
  | nilServerErr
  | setupErr (e : String)
  | listenerErr (e : String)
  | serving
deriving DecidableEq

/-- ListenAndServeHttp control flow: delegate to the main process when the
role says so; reject a nil server; run setupWorkerRuntime, returning its
error before any listener is created; only then announce the listener
(outcome given by the listenRes oracle) and serve. -/
def ListenAndServeHttp (isMain : Bool) (serverNil : Bool)
    (affinityErr : Int → Option String) (workerCpuCore : String)
    (listenRes : Except String Unit) : ServeOutcome :=
  if isMain then ServeOutcome.mainProcess
  else if serverNil then ServeOutcome.nilServerErr
  else
    match (setupWorkerRuntime affinityErr workerCpuCore).retErr with
    | some e => ServeOutcome.setupErr e
    | none =>
        match listenRes with
        | Except.error e => ServeOutcome.listenerErr e
        | Except.ok _ => ServeOutcome.serving

/-! ## Socket factory -/

/-- The Control callback of getListenerWithSocketOptions.  The three inputs
are the outcomes (some = error message) of c.Control itself, of setting
SO_REUSEADDR and of setting SO_REUSEPORT.  The callback collects every
non-nil message into errMsg in that order and returns one combined error
joining them with a semicolon, or nil when errMsg stayed empty. -/
def controlSocketOptions (controlErr reuseAddrErr reusePortErr : Option String) :
    Option String :=
  let errMsg : List String := []
  let errMsg := match controlErr with
    | some e => errMsg ++ [e]
    | none => errMsg
  let errMsg := match reuseAddrErr with
    | some e => errMsg ++ [e]
    | none => errMsg
  let errMsg := match reusePortErr with
    | some e => errMsg ++ [e]
    | none => errMsg
  if errMsg.length > 0 then some (String.intercalate ";" errMsg) else none

/-- A bound listener as the worker sees it: just its address here. -/
structure Listener where
  addr : String
deriving DecidableEq

/-- What getListenerWithSocketOptions does around the Listen call:
loggedStartingListener records whether the Starting-listener log line ran,
nilAddrDeref records whether that log line evaluated l.Addr() on a nil
listener (a runtime panic in Go), and returned is the pair handed back to
the caller. -/
structure ListenTrace where
  loggedStartingListener : Bool
  nilAddrDeref : Bool
  returned : Option Listener × Option String
deriving DecidableEq

/-- getListenerWithSocketOptions after the Listen call, whose outcome
(listener, error) is the oracle input; Go returns a nil listener with a
non-nil error on failure.  The source logs Starting listener, reading
l.Addr(), precisely when err is non-nil, then returns the pair. -/
def getListenerWithSocketOptions (listenResult : Option Listener × Option String) :
    ListenTrace :=
  match listenResult with
  | (l, err) =>
      if err.isSome then
        { loggedStartingListener := true, nilAddrDeref := l.isNone
          returned := (l, err) }
      else
        { loggedStartingListener := false, nilAddrDeref := false
          returned := (l, err) }

/-! ## Process spawner -/

/-- forkProcess builds the child environment: copy every current variable
except those carrying the package prefix, then append the freshly supplied
token values.  Variables are NAME=value strings as in Go. -/
def forkProcessChildEnv (currentEnv envValues : List String) : List String :=
  currentEnv.filter (fun v => !(goHasPrefix v envPrefix)) ++ envValues

/-! ## Main process supervisor -/

/-- A process handle as the supervisor keeps it. -/
structure Proc where
  pid : Int
deriving DecidableEq

/-- The signals the main process subscribes to. -/
inductive Sig
  | sigint
  | sigterm
  | sigquit
  | sigusr2
deriving DecidableEq

/-- The string Go prints for each signal. -/
def Sig.name : Sig → String
  | Sig.sigint => "interrupt"
  | Sig.sigterm => "terminated"
  | Sig.sigquit => "quit"
  | Sig.sigusr2 => "user defined signal 2"

/-- The three shutdown-class signals; SIGUSR2 requests an upgrade instead. -/
def Sig.isShutdown : Sig → Bool
  | Sig.sigusr2 => false
  | _ => true

/-- Outcome of one per-worker goroutine of sendSignalToWorkers; every
constructor is a logged, non-propagating event. -/
inductive WaitOutcome
  | signalFailed (msg : String)
  | waitFailed (msg : String)
  | exited (status : String)
deriving DecidableEq

/-- The completed record one goroutine of sendSignalToWorkers leaves behind:
which worker, which signal was attempted, and how the signal-then-wait
sequence ended. -/
structure WorkerReport where
  pid : Int
  sig : Sig
  outcome : WaitOutcome
deriving DecidableEq

/-- Outcomes of the OS calls p.Signal and p.Wait, keyed by the worker pid:
signalErr gives some error message or none for success, waitRes gives the
wait error or the exit-status string. -/
structure ProcOracle where
  signalErr : Int → Sig → Option String
  waitRes : Int → Except String String

/-- Body of one goroutine of sendSignalToWorkers: send the signal, logging
a failure; on success wait for the worker, logging a wait failure or the
exit status.  Each branch completes with a report. -/
def signalAndWait (o : ProcOracle) (s : Sig) (p : Proc) : WorkerReport :=
  match o.signalErr p.pid s with
  | some e => { pid := p.pid, sig := s, outcome := WaitOutcome.signalFailed e }
  | none =>
      match o.waitRes p.pid with
      | Except.error e => { pid := p.pid, sig := s, outcome := WaitOutcome.waitFailed e }
      | Except.ok st => { pid := p.pid, sig := s, outcome := WaitOutcome.exited st }

/-- sendSignalToWorkers: skip nil pool slots, run one signal-and-wait
goroutine per live worker, and return only after the WaitGroup has joined
every goroutine; the returned list holds the completed report of every
live worker in pool order. -/
def sendSignalToWorkers (o : ProcOracle) (workers : List (Option Proc))
    (s : Sig) : List WorkerReport :=
  (workers.filterMap id).map (signalAndWait o s)

/-- One worker spawn attempt of the Starting phase: the loop index, the token
values handed to forkProcess, and the resulting handle (none when
forkProcess failed; the failure is logged and the slot stays empty). -/
structure SpawnAttempt where
  coreIdx : Nat
  envVals : List String
  result : Option Proc
deriving DecidableEq

/-- The token values built for the worker of core index i. -/
def workerEnvVals (pid : Int) (coreIdx : Nat) : List String :=
  [envPPID ++ "=" ++ toString pid, envCPUCore ++ "=" ++ toString coreIdx]

/-- The token values built for the successor main process on upgrade. -/
def upgradeEnvVals (pid : Int) : List String :=
  [envPrevPPID ++ "=" ++ toString pid]

/-- The spawn loop of StartMainProcess: one forkProcess attempt per core
index 0..numCPU-1, the outcome of the i-th attempt given by the forkO
oracle; a failed attempt is logged and recorded as an empty slot, and the
loop always runs to completion. -/
def startWorkers (forkO : Nat → Option Proc) (pid : Int) (numCPU : Nat) :
    List SpawnAttempt :=
  (List.range numCPU).map (fun i => ⟨i, workerEnvVals pid i, forkO i⟩)

/-- The worker pool: the handle slots of the attempts, in order. -/
def poolOf (attempts : List SpawnAttempt) : List (Option Proc) :=
  attempts.map SpawnAttempt.result

/-- What the predecessor-termination goroutine ends as; every failure
constructor is only a log line, never a propagated error. -/
inductive PrevTermAction
  | parseFailed (msg : String)
  | findFailed (prevPid : Int) (msg : String)
  | signalFailed (prevPid : Int) (msg : String)
  | sigtermSent (prevPid : Int)
deriving DecidableEq

/-- prevMainProcessGraceInterval, in seconds. -/
def prevMainProcessGraceInterval : Nat := 5

/-- The predecessor-termination goroutine scheduled by a successor main
process: nothing happens when the predecessor token is absent; otherwise,
after sleeping the grace interval (the returned delay, in seconds), parse
the token, look the process up (findO oracle) and send it SIGTERM (sigErr
oracle, some = error), each failure merely logged. -/
def terminatePredecessor (findO : Int → Except String Proc)
    (sigErr : Int → Option String) (prevStr : String) :
    Option (Nat × PrevTermAction) :=
  if prevStr = "" then none
  else
    some (prevMainProcessGraceInterval,
      match goAtoi prevStr with
      | Except.error e => PrevTermAction.parseFailed e
      | Except.ok prevPid =>
          match findO prevPid with
          | Except.error e => PrevTermAction.findFailed prevPid e
          | Except.ok p =>
              match sigErr p.pid with
              | some e => PrevTermAction.signalFailed p.pid e
              | none => PrevTermAction.sigtermSent p.pid)

/-- One upgrade spawn performed on SIGUSR2: the token values handed to
forkProcess and the resulting handle (none = logged spawn failure). -/
structure UpgradeSpawn where
  envVals : List String
  result : Option Proc
deriving DecidableEq

/-- How one pass of the signal loop ends when a shutdown-class signal
arrives: the upgrade spawns performed so far, the terminating signal, the
completed worker reports, and the error text StartMainProcess returns. -/
structure LoopResult where
  upgradeSpawns : List UpgradeSpawn
  finalSig : Sig
  reports : List WorkerReport
  errMsg : String
deriving DecidableEq

/-- The signal loop of StartMainProcess over the stream of delivered
signals.  A shutdown-class signal propagates itself to every worker via
sendSignalToWorkers, waits for all of them, breaks the loop, and yields
the signal-received error.  SIGUSR2 runs the (failure-isolated) upgrade
hook, spawns exactly one successor carrying the current pid as
predecessor token (outcome of the n-th upgrade spawn given by upForkO),
logs the outcome, and stays in the loop.  An exhausted stream means the
loop is still blocked waiting for a signal. -/
def mainSignalLoop (o : ProcOracle) (upForkO : Nat → Option Proc) (pid : Int)
    (workers : List (Option Proc)) :
    List Sig → List UpgradeSpawn → Option LoopResult
  | [], _ => none
  | s :: rest, acc =>
      if s.isShutdown then
        some { upgradeSpawns := acc, finalSig := s
               reports := sendSignalToWorkers o workers s
               errMsg := "signal received: " ++ s.name }
      else
        mainSignalLoop o upForkO pid workers rest
          (acc ++ [⟨upgradeEnvVals pid, upForkO acc.length⟩])

/-- Everything observable about one StartMainProcess run. -/
structure MainRun where
  attempts : List SpawnAttempt
  prevTerm : Option (Nat × PrevTermAction)
  loopResult : Option LoopResult

/-- StartMainProcess: spawn the worker pool (one attempt per detected core),
schedule the predecessor-termination goroutine when the predecessor token
is present, then enter the signal loop with the pool just built.  Spawn
failures never stop this sequence. -/
def StartMainProcess (forkO : Nat → Option Proc) (upForkO : Nat → Option Proc)
    (o : ProcOracle) (pid : Int) (numCPU : Nat) (prevStr : String)
    (findO : Int → Except String Proc) (prevSigErr : Int → Option String)
    (sigs : List Sig) : MainRun :=
  let attempts := startWorkers forkO pid numCPU
  { attempts := attempts
    prevTerm := terminatePredecessor findO prevSigErr prevStr
    loopResult := mainSignalLoop o upForkO pid (poolOf attempts) sigs [] }

/-! ## Worker shutdown coordinator -/

/-- How a user-supplied hook behaves when invoked: it returns normally or it
terminates abnormally (panics, in Go terms) with a message. -/
inductive HookBehavior
  | runsNormally
  | abnormalExit (msg : String)
deriving DecidableEq

/-- Events of the worker signal-handling goroutine, in execution order. -/
inductive WorkerEvent
  | hookInvoked
  | hookFailureLogged (msg : String)
  | gracefulStopInvoked
deriving DecidableEq

/-- The worker shutdown goroutine after the one terminating signal arrives
(shared, token for token around the hook, by the HTTP and gRPC entry
points): when OnServerShutdown is set, invoke it once inside a recover
boundary that catches and logs an abnormal termination; then invoke the
graceful-stop operation of the adapter, unconditionally. -/
def workerShutdownHandler (hook : Option HookBehavior) : List WorkerEvent :=
  (match hook with
   | none => []
   | some HookBehavior.runsNormally => [WorkerEvent.hookInvoked]
   | some (HookBehavior.abnormalExit m) =>
       [WorkerEvent.hookInvoked, WorkerEvent.hookFailureLogged m])
  ++ [WorkerEvent.gracefulStopInvoked]

end Gopherpack

namespace Gopherpack

/-! ## Helper lemmas -/

theorem string_toList_append (s t : String) :
    (s ++ t).toList = s.toList ++ t.toList :=
  String.data_append s t

theorem goHasPrefix_of_append (s : String) (l : List Char)
    (h : s.toList = envPrefix.toList ++ l) : goHasPrefix s envPrefix = true := by
  rw [goHasPrefix, List.isPrefixOf_iff_prefix, h]
  exact List.prefix_append _ _

theorem envPPID_token_prefixed (pid : Int) :
    goHasPrefix (envPPID ++ "=" ++ toString pid) envPrefix = true := by
  refine goHasPrefix_of_append _
    ("_MAIN_PROCESS_PID".toList ++ ("=".toList ++ (toString pid).toList)) ?_
  rw [envPPID, string_toList_append, string_toList_append, string_toList_append,
    List.append_assoc, List.append_assoc]

theorem envCPUCore_token_prefixed (i : Nat) :
    goHasPrefix (envCPUCore ++ "=" ++ toString i) envPrefix = true := by
  refine goHasPrefix_of_append _
    ("_WORKER_CPU_CORE".toList ++ ("=".toList ++ (toString i).toList)) ?_
  rw [envCPUCore, string_toList_append, string_toList_append, string_toList_append,
    List.append_assoc, List.append_assoc]

theorem envPrevPPID_token_prefixed (pid : Int) :
    goHasPrefix (envPrevPPID ++ "=" ++ toString pid) envPrefix = true := by
  refine goHasPrefix_of_append _
    ("_PREV_MAIN_PROCESS_PID".toList ++ ("=".toList ++ (toString pid).toList)) ?_
  rw [envPrevPPID, string_toList_append, string_toList_append, string_toList_append,
    List.append_assoc, List.append_assoc]

theorem signalAndWait_pid (o : ProcOracle) (s : Sig) (p : Proc) :
    (signalAndWait o s p).pid = p.pid := by
  unfold signalAndWait
  cases o.signalErr p.pid s with
  | some e => rfl
  | none =>
      cases o.waitRes p.pid with
      | error e => rfl
      | ok st => rfl

theorem signalAndWait_sig (o : ProcOracle) (s : Sig) (p : Proc) :
    (signalAndWait o s p).sig = s := by
  unfold signalAndWait
  cases o.signalErr p.pid s with
  | some e => rfl
  | none =>
      cases o.waitRes p.pid with
      | error e => rfl
      | ok st => rfl

theorem sendSignalToWorkers_pids (o : ProcOracle) (workers : List (Option Proc))
    (s : Sig) :
    (sendSignalToWorkers o workers s).map WorkerReport.pid
      = (workers.filterMap id).map Proc.pid := by
  unfold sendSignalToWorkers
  induction workers.filterMap id with
  | nil => rfl
  | cons p t ih => simp [signalAndWait_pid, ih]

theorem sendSignalToWorkers_sigs (o : ProcOracle) (workers : List (Option Proc))
    (s : Sig) :
    ∀ rep ∈ sendSignalToWorkers o workers s, rep.sig = s := by
  intro rep hrep
  rcases List.mem_map.mp hrep with ⟨p, hp, hps⟩
  rw [← hps]
  exact signalAndWait_sig o s p

theorem mainSignalLoop_exit_shutdown (o : ProcOracle) (upForkO : Nat → Option Proc)
    (pid : Int) (workers : List (Option Proc)) :
    ∀ (sigs : List Sig) (acc : List UpgradeSpawn) (r : LoopResult),
      mainSignalLoop o upForkO pid workers sigs acc = some r →
      r.finalSig.isShutdown = true := by
  intro sigs
  induction sigs with
  | nil => intro acc r h; simp [mainSignalLoop] at h
  | cons s rest ih =>
      intro acc r h
      simp only [mainSignalLoop] at h
      split at h
      next hs =>
        injection h with h2
        rw [← h2]
        exact hs
      next => exact ih _ r h

theorem forkProcessChildEnv_prefixed_mem (cur vals : List String) :
    ∀ v ∈ forkProcessChildEnv cur vals, goHasPrefix v envPrefix = true → v ∈ vals := by
  intro v hv hpfx
  rcases List.mem_append.mp hv with h | h
  · rcases List.mem_filter.mp h with ⟨_, hcond⟩
    rw [hpfx] at hcond
    simp at hcond
  · exact h

end Gopherpack

namespace Gopherpack

/-! ## Claim theorems -/

/-- C1.  Role detection: the role is computed once from the startup
environment; IsMainProcess never rereads the ambient environment, so it
returns the same value for the whole process lifetime; the process is a
Worker iff the parent-identity token is present (non-empty), else a
Supervisor, and the decision depends on no other token. -/
theorem c1_role_detection :
    ∀ (startupEnv cur cur' : String → String),
      IsMainProcessAt (processInit startupEnv) cur
          = IsMainProcessAt (processInit startupEnv) cur'
        ∧ (detectRole startupEnv = Role.Worker ↔ ¬ startupEnv envPPID = "")
        ∧ (detectRole startupEnv = Role.Supervisor ↔ startupEnv envPPID = "")
        ∧ (IsMainProcess (processInit startupEnv) = true ↔ startupEnv envPPID = "")
        ∧ ∀ e' : String → String, e' envPPID = startupEnv envPPID →
            detectRole e' = detectRole startupEnv := by
  intro e cur cur'
  refine ⟨rfl, ?_, ?_, ?_, ?_⟩
  · by_cases h : e envPPID = "" <;>
      simp [detectRole, IsMainProcess, processInit, h]
  · by_cases h : e envPPID = "" <;>
      simp [detectRole, IsMainProcess, processInit, h]
  · by_cases h : e envPPID = "" <;>
      simp [IsMainProcess, processInit, h]
  · intro e' h
    simp [detectRole, IsMainProcess, processInit, h]

/-- C2.  Shutdown fan-out: on a shutdown-class signal the supervisor loop
ends at once with the signal-received error naming that signal, having
handed that same signal to every non-nil worker record (one completed
signal-and-wait report per live worker, in pool order, whatever the
per-worker signal or wait outcomes are — so a failure on one worker never
suppresses the wait of a sibling), and returns only with all reports
completed. -/
theorem c2_shutdown_fanout :
    ∀ (o : ProcOracle) (upForkO : Nat → Option Proc) (pid : Int)
      (workers : List (Option Proc)) (s : Sig) (rest : List Sig),
      s.isShutdown = true →
      ∃ r : LoopResult,
        mainSignalLoop o upForkO pid workers (s :: rest) [] = some r
          ∧ r.finalSig = s
          ∧ r.errMsg = "signal received: " ++ s.name
          ∧ r.upgradeSpawns = []
          ∧ r.reports.map WorkerReport.pid = (workers.filterMap id).map Proc.pid
          ∧ ∀ rep ∈ r.reports, rep.sig = s := by
  intro o upForkO pid workers s rest h
  refine ⟨{ upgradeSpawns := [], finalSig := s
            reports := sendSignalToWorkers o workers s
            errMsg := "signal received: " ++ s.name }, ?_, rfl, rfl, rfl, ?_, ?_⟩
  · simp [mainSignalLoop, h]
  · exact sendSignalToWorkers_pids o workers s
  · exact sendSignalToWorkers_sigs o workers s

/-- C2 witness: a pool with one empty slot, one worker whose signal delivery
fails and one whose wait fails; the loop still completes both reports and
ends with the terminated-signal error. -/
theorem c2_shutdown_fanout_witness :
    ∃ r : LoopResult,
      mainSignalLoop
          ⟨fun wpid _ => if wpid = 1 then some "operation not permitted" else none,
           fun wpid => if wpid = 2 then Except.error "wait: no child processes"
             else Except.ok "exit status 0"⟩
          (fun _ => none) 7 [some ⟨1⟩, none, some ⟨2⟩] [Sig.sigterm] []
          = some r
        ∧ r.finalSig = Sig.sigterm
        ∧ r.errMsg = "signal received: " ++ Sig.sigterm.name
        ∧ r.upgradeSpawns = []
        ∧ r.reports.map WorkerReport.pid
            = (([some ⟨1⟩, none, some ⟨2⟩] : List (Option Proc)).filterMap id).map
                Proc.pid
        ∧ ∀ rep ∈ r.reports, rep.sig = Sig.sigterm :=
  c2_shutdown_fanout
    ⟨fun wpid _ => if wpid = 1 then some "operation not permitted" else none,
     fun wpid => if wpid = 2 then Except.error "wait: no child processes"
       else Except.ok "exit status 0"⟩
    (fun _ => none) 7 [some ⟨1⟩, none, some ⟨2⟩] Sig.sigterm [] rfl

/-- C3.  Upgrade protocol: one SIGUSR2 while running spawns exactly one
successor carrying the current pid as the predecessor token and the loop
continues with the remaining signals (it can only ever end on a
shutdown-class signal); in the successor, the predecessor-termination
goroutine fires only after the fixed 5-second grace interval, and each of
its failure modes — unparsable token, process lookup failure, signal
delivery failure (predecessor already exited) — yields a merely logged
action, never an error. -/
theorem c3_upgrade_protocol :
    ∀ (o : ProcOracle) (upForkO : Nat → Option Proc) (pid : Int)
      (workers : List (Option Proc)) (rest : List Sig) (acc : List UpgradeSpawn)
      (findO : Int → Except String Proc) (sigErr : Int → Option String)
      (prevStr : String),
      mainSignalLoop o upForkO pid workers (Sig.sigusr2 :: rest) acc
          = mainSignalLoop o upForkO pid workers rest
              (acc ++ [⟨upgradeEnvVals pid, upForkO acc.length⟩])
        ∧ upgradeEnvVals pid = [envPrevPPID ++ "=" ++ toString pid]
        ∧ (∀ (sigs : List Sig) (acc' : List UpgradeSpawn) (r : LoopResult),
            mainSignalLoop o upForkO pid workers sigs acc' = some r →
            r.finalSig.isShutdown = true)
        ∧ (prevStr ≠ "" → ∃ act : PrevTermAction,
            terminatePredecessor findO sigErr prevStr
              = some (prevMainProcessGraceInterval, act))
        ∧ 5 ≤ prevMainProcessGraceInterval
        ∧ (∀ e : String, prevStr ≠ "" → goAtoi prevStr = Except.error e →
            terminatePredecessor findO sigErr prevStr
              = some (prevMainProcessGraceInterval, PrevTermAction.parseFailed e))
        ∧ (∀ (pr : Int) (e : String), prevStr ≠ "" →
            goAtoi prevStr = Except.ok pr → findO pr = Except.error e →
            terminatePredecessor findO sigErr prevStr
              = some (prevMainProcessGraceInterval, PrevTermAction.findFailed pr e))
        ∧ (∀ (pr : Int) (p : Proc) (e : String), prevStr ≠ "" →
            goAtoi prevStr = Except.ok pr → findO pr = Except.ok p →
            sigErr p.pid = some e →
            terminatePredecessor findO sigErr prevStr
              = some (prevMainProcessGraceInterval, PrevTermAction.signalFailed p.pid e))
        ∧ (∀ (pr : Int) (p : Proc), prevStr ≠ "" →
            goAtoi prevStr = Except.ok pr → findO pr = Except.ok p →
            sigErr p.pid = none →
            terminatePredecessor findO sigErr prevStr
              = some (prevMainProcessGraceInterval, PrevTermAction.sigtermSent p.pid)) := by
  intro o upForkO pid workers rest acc findO sigErr prevStr
  refine ⟨rfl, rfl, mainSignalLoop_exit_shutdown o upForkO pid workers, ?_, by decide,
    ?_, ?_, ?_, ?_⟩
  · intro h
    cases hg : goAtoi prevStr with
    | error e =>
        exact ⟨PrevTermAction.parseFailed e, by simp [terminatePredecessor, h, hg]⟩
    | ok pr =>
        cases hf : findO pr with
        | error e =>
            exact ⟨PrevTermAction.findFailed pr e,
              by simp [terminatePredecessor, h, hg, hf]⟩
        | ok p =>
            cases hs : sigErr p.pid with
            | some e =>
                exact ⟨PrevTermAction.signalFailed p.pid e,
                  by simp [terminatePredecessor, h, hg, hf, hs]⟩
            | none =>
                exact ⟨PrevTermAction.sigtermSent p.pid,
                  by simp [terminatePredecessor, h, hg, hf, hs]⟩
  · intro e h hparse
    simp [terminatePredecessor, h, hparse]
  · intro pr e h hparse hfind
    simp [terminatePredecessor, h, hparse, hfind]
  · intro pr p e h hparse hfind hsig
    simp [terminatePredecessor, h, hparse, hfind, hsig]
  · intro pr p h hparse hfind hsig
    simp [terminatePredecessor, h, hparse, hfind, hsig]

/-- C4.  Pool construction: a detected core count of k yields exactly k spawn
attempts, with core indices exactly 0..k-1 (contiguous, no duplicates),
each child environment carrying the parent pid and its own core index; the
pool slot of attempt i holds exactly the outcome of fork attempt i (empty
on failure), and StartMainProcess always carries that pool into its signal
loop, whatever the fork outcomes were. -/
theorem c4_pool_construction :
    ∀ (forkO upForkO : Nat → Option Proc) (o : ProcOracle) (pid : Int) (k : Nat)
      (prevStr : String) (findO : Int → Except String Proc)
      (prevSigErr : Int → Option String) (sigs : List Sig),
      (startWorkers forkO pid k).length = k
        ∧ (startWorkers forkO pid k).map SpawnAttempt.coreIdx = List.range k
        ∧ ((startWorkers forkO pid k).map SpawnAttempt.coreIdx).Nodup
        ∧ (startWorkers forkO pid k).map SpawnAttempt.envVals
            = (List.range k).map (workerEnvVals pid)
        ∧ (∀ i : Nat, workerEnvVals pid i
            = [envPPID ++ "=" ++ toString pid, envCPUCore ++ "=" ++ toString i])
        ∧ poolOf (startWorkers forkO pid k) = (List.range k).map forkO
        ∧ (StartMainProcess forkO upForkO o pid k prevStr findO prevSigErr
            sigs).attempts = startWorkers forkO pid k
        ∧ (StartMainProcess forkO upForkO o pid k prevStr findO prevSigErr
            sigs).loopResult
            = mainSignalLoop o upForkO pid (poolOf (startWorkers forkO pid k))
                sigs [] := by
  intro forkO upForkO o pid k prevStr findO prevSigErr sigs
  have hcore : (startWorkers forkO pid k).map SpawnAttempt.coreIdx = List.range k := by
    simp only [startWorkers, List.map_map]
    exact List.map_id _
  refine ⟨?_, hcore, ?_, ?_, fun i => rfl, ?_, rfl, rfl⟩
  · simp [startWorkers]
  · rw [hcore]
    exact List.nodup_range k
  · simp only [startWorkers, List.map_map]
    simp [Function.comp_def]
  · simp only [poolOf, startWorkers, List.map_map]
    rfl

/-- C5.  Environment sanitization: the child environment built by forkProcess
holds no variable carrying the handshake prefix other than the freshly
supplied token values — in particular, layering a second generation on top
of a first never leaks a first-generation token — and every handshake
token the supervisor builds (parent pid, core index, predecessor pid) does
carry that prefix, so a stale copy of it is always stripped. -/
theorem c5_env_sanitization :
    ∀ currentEnv envValues secondEnvValues : List String,
      (∀ v ∈ forkProcessChildEnv currentEnv envValues,
          goHasPrefix v envPrefix = true → v ∈ envValues)
        ∧ (∀ v ∈ forkProcessChildEnv (forkProcessChildEnv currentEnv envValues)
              secondEnvValues,
            goHasPrefix v envPrefix = true → v ∈ secondEnvValues)
        ∧ (∀ (pid : Int) (i : Nat), ∀ v ∈ workerEnvVals pid i,
            goHasPrefix v envPrefix = true)
        ∧ (∀ pid : Int, ∀ v ∈ upgradeEnvVals pid,
            goHasPrefix v envPrefix = true) := by
  intro currentEnv envValues secondEnvValues
  refine ⟨forkProcessChildEnv_prefixed_mem currentEnv envValues,
    forkProcessChildEnv_prefixed_mem _ secondEnvValues, ?_, ?_⟩
  · intro pid i v hv
    simp only [workerEnvVals, List.mem_cons, List.not_mem_nil, or_false] at hv
    rcases hv with rfl | rfl
    · exact envPPID_token_prefixed pid
    · exact envCPUCore_token_prefixed i
  · intro pid v hv
    simp only [upgradeEnvVals, List.mem_singleton] at hv
    subst hv
    exact envPrevPPID_token_prefixed pid

/-- C6 counterexample: with a well-formed core-index token and a failing
affinity call, setupWorkerRuntime returns a non-nil error and never
executes GOMAXPROCS(1), refuting the claim that the failure is only logged
and the serve entry point still proceeds. -/
theorem c6_counterexample_affinity_fatal :
    (setupWorkerRuntime (fun _ => some "operation not permitted") "3").retErr
        = some "operation not permitted"
      ∧ (setupWorkerRuntime (fun _ => some "operation not permitted") "3").gomaxprocsOne
        = false
      ∧ ListenAndServeHttp false false (fun _ => some "operation not permitted")
          "3" (Except.ok ()) = ServeOutcome.setupErr "operation not permitted" := by
  refine ⟨rfl, rfl, rfl⟩

/-- C6 (amended).  Affinity failure is fatal: for every worker whose
core-index token parses, a failure of the OS affinity-pinning call is
logged and makes setupWorkerRuntime return that error (so the serve entry
points fail), and the GOMAXPROCS(1) restriction is applied only when the
affinity call succeeds. -/
theorem c6_affinity_failure_fatal :
    ∀ (affinityErr : Int → Option String) (s : String) (c : Int) (e : String),
      goAtoi s = Except.ok c → affinityErr c = some e →
      setupWorkerRuntime affinityErr s
          = { retErr := some e, affinityTried := some c
              affinityErrLogged := true, gomaxprocsOne := false }
        ∧ ∀ lr : Except String Unit,
            ListenAndServeHttp false false affinityErr s lr
              = ServeOutcome.setupErr e := by
  intro affinityErr s c e hs ha
  constructor
  · simp [setupWorkerRuntime, hs, ha]
  · intro lr
    simp [ListenAndServeHttp, setupWorkerRuntime, hs, ha]

/-- C6 witness: core index 3 parses, the affinity call fails, and the trace
shows the logged failure, the returned error and the skipped GOMAXPROCS. -/
theorem c6_affinity_failure_fatal_witness :
    setupWorkerRuntime (fun _ => some "operation not permitted") "3"
        = { retErr := some "operation not permitted", affinityTried := some 3
            affinityErrLogged := true, gomaxprocsOne := false }
      ∧ ∀ lr : Except String Unit,
          ListenAndServeHttp false false (fun _ => some "operation not permitted")
            "3" lr = ServeOutcome.setupErr "operation not permitted" :=
  c6_affinity_failure_fatal (fun _ => some "operation not permitted") "3" 3
    "operation not permitted" rfl rfl

/-- C7.  Hook isolation: whatever the optional pre-shutdown hook does, the
graceful-stop operation of the adapter is always the last event of the
worker shutdown goroutine; the hook runs at most once per signal receipt;
and when it terminates abnormally the failure is caught and logged at the
hook boundary, after which graceful stop is still invoked. -/
theorem c7_hook_isolation :
    ∀ hook : Option HookBehavior,
      (workerShutdownHandler hook).getLast? = some WorkerEvent.gracefulStopInvoked
        ∧ (workerShutdownHandler hook).count WorkerEvent.hookInvoked ≤ 1
        ∧ ∀ m : String, hook = some (HookBehavior.abnormalExit m) →
            workerShutdownHandler hook
              = [WorkerEvent.hookInvoked, WorkerEvent.hookFailureLogged m,
                 WorkerEvent.gracefulStopInvoked] := by
  intro hook
  rcases hook with _ | hb
  · exact ⟨rfl, by decide, by intro m h; cases h⟩
  · rcases hb with _ | m
    · exact ⟨rfl, by decide, by intro m h; cases h⟩
    · refine ⟨rfl, ?_, ?_⟩
      · simp [workerShutdownHandler, List.count_cons]
      · intro m' h
        cases h
        rfl

/-- C8.  Socket option error aggregation: the Control callback returns no
error exactly when the control call and both socket options succeeded, and
otherwise one single combined error joining precisely the non-nil failure
messages, in order — no failure is silently dropped. -/
theorem c8_socket_option_aggregation :
    ∀ controlErr reuseAddrErr reusePortErr : Option String,
      (controlSocketOptions controlErr reuseAddrErr reusePortErr = none
          ↔ controlErr = none ∧ reuseAddrErr = none ∧ reusePortErr = none)
        ∧ controlSocketOptions controlErr reuseAddrErr reusePortErr
            = (match [controlErr, reuseAddrErr, reusePortErr].filterMap id with
               | [] => none
               | msgs => some (String.intercalate ";" msgs)) := by
  intro a b c
  rcases a with _ | a <;> rcases b with _ | b <;> rcases c with _ | c <;>
    refine ⟨?_, rfl⟩ <;> simp [controlSocketOptions]

/-- C9.  Malformed core-index is fatal: whenever the core-index token fails
to parse, setupWorkerRuntime returns exactly the parse error without ever
reaching the affinity call (no default core is substituted), and the HTTP
serve entry point fails with that error before any listener is created —
its outcome does not depend on the Listen result at all. -/
theorem c9_malformed_core_index_fatal :
    ∀ (affinityErr : Int → Option String) (s e : String)
      (listenRes listenRes' : Except String Unit),
      goAtoi s = Except.error e →
      (setupWorkerRuntime affinityErr s).retErr = some e
        ∧ (setupWorkerRuntime affinityErr s).affinityTried = none
        ∧ ListenAndServeHttp false false affinityErr s listenRes
            = ServeOutcome.setupErr e
        ∧ ListenAndServeHttp false false affinityErr s listenRes
            = ListenAndServeHttp false false affinityErr s listenRes' := by
  intro affinityErr s e lr lr' h
  refine ⟨?_, ?_, ?_, ?_⟩ <;> simp [setupWorkerRuntime, ListenAndServeHttp, h]

/-- C9 witness: the non-numeric token abc makes the runtime setup and the
serve entry point fail with the strconv parse error, with the listener
never consulted. -/
theorem c9_malformed_core_index_fatal_witness :
    (setupWorkerRuntime (fun _ => none) "abc").retErr
        = some "strconv.Atoi: parsing \"abc\": invalid syntax"
      ∧ (setupWorkerRuntime (fun _ => none) "abc").affinityTried = none
      ∧ ListenAndServeHttp false false (fun _ => none) "abc" (Except.ok ())
          = ServeOutcome.setupErr "strconv.Atoi: parsing \"abc\": invalid syntax"
      ∧ ListenAndServeHttp false false (fun _ => none) "abc" (Except.ok ())
          = ListenAndServeHttp false false (fun _ => none) "abc"
              (Except.error "listen error") :=
  c9_malformed_core_index_fatal (fun _ => none) "abc"
    "strconv.Atoi: parsing \"abc\": invalid syntax" (Except.ok ())
    (Except.error "listen error") rfl

/-- C10.  Evaluation of getListenerWithSocketOptions at a failing Listen
call: the source logs its Starting-listener line precisely on the failure
path, evaluating l.Addr() on the nil listener it was just handed (a nil
dereference, hence a runtime panic in Go), while on a successful Listen no
Starting-listener line is emitted at all — the inverse of the claimed
behavior. -/
theorem c10_nil_listener_deref :
    (getListenerWithSocketOptions
          (none, some "listen tcp: lookup bogus: no such host")).nilAddrDeref = true
      ∧ (getListenerWithSocketOptions
          (none, some "listen tcp: lookup bogus: no such host")).loggedStartingListener
          = true
      ∧ (getListenerWithSocketOptions
          (none, some "listen tcp: lookup bogus: no such host")).returned
          = (none, some "listen tcp: lookup bogus: no such host")
      ∧ (getListenerWithSocketOptions
          (some ⟨"127.0.0.1:8778"⟩, none)).loggedStartingListener = false := by
  refine ⟨rfl, rfl, rfl, rfl⟩

end Gopherpack
